import Mathlib

/-!
# Verification of the MAAS node configuration store
(`src/provisioningserver/config.py`)

A shallow embedding of the configuration subsystem: the validator layer,
the `ConfigurationOption` descriptor, the `ConfigurationFile` and
`ConfigurationDatabase` backends, the `Configuration` facade with its
`__setattr__` typo guard, and the `ConfigBase` process-wide parse cache.

Modelling conventions:
* Parsed YAML/JSON documents are values of the inductive type `Yaml`
  (floats are outside the modelled value domain; no claim involves them).
* A file's on-disk state is its parsed document, `Option Yaml` with
  `none` for a nonexistent file; an empty file parses to `Yaml.null`,
  exactly as `yaml.safe_load` returns `None` for empty input.
* Python exceptions are the explicit error type `PyErr` carried in
  `Except`; a store `__getitem__` that raises `KeyError` is modelled as
  returning `Option` because the one consumer inside this subsystem
  (the option descriptor) catches exactly `KeyError`.
* Python dicts are association lists: update-in-place for an existing
  key, append for a new key, preserving insertion order as dicts do.
-/

/-- Parsed YAML/JSON documents (the value domain of the stores). -/
inductive Yaml where
  | null : Yaml
  | bool (b : Bool) : Yaml
  | int (n : Int) : Yaml
  | str (s : String) : Yaml
  | seq (xs : List Yaml) : Yaml
  | map (xs : List (String × Yaml)) : Yaml
deriving Repr

/-- Python exceptions that this subsystem raises or propagates. -/
inductive PyErr where
  | keyError (name : String) : PyErr
  | valueError (msg : String) : PyErr
  | invalid (msg : String) : PyErr
  | attributeError (msg : String) : PyErr
  | ioError (msg : String) : PyErr
  | userError (msg : String) : PyErr
deriving Repr, DecidableEq

namespace Assoc

variable {α : Type}

/-- Dict lookup: first binding of `k`, if any. -/
def lookupA (xs : List (String × α)) (k : String) : Option α :=
  match xs with
  | [] => none
  | (k', v) :: rest => if k' = k then some v else lookupA rest k

/-- Dict update: replace an existing binding in place, else append
(Python dict assignment semantics, insertion order preserved). -/
def insertA (xs : List (String × α)) (k : String) (v : α) :
    List (String × α) :=
  match xs with
  | [] => [(k, v)]
  | (k', v') :: rest =>
      if k' = k then (k, v) :: rest else (k', v') :: insertA rest k v

/-- Dict deletion: drop the binding of `k`.  (Python dicts hold at most
one binding per key; dropping every one keeps the model total.) -/
def eraseA (xs : List (String × α)) (k : String) : List (String × α) :=
  match xs with
  | [] => []
  | (k', v') :: rest =>
      if k' = k then eraseA rest k else (k', v') :: eraseA rest k

theorem lookupA_insertA_self (xs : List (String × α)) (k : String)
    (v : α) : lookupA (insertA xs k v) k = some v := by
  induction xs with
  | nil => simp [insertA, lookupA]
  | cons hd tl ih =>
      obtain ⟨k', v'⟩ := hd
      by_cases h : k' = k
      · simp [insertA, lookupA, h]
      · simp [insertA, lookupA, h, ih]

theorem lookupA_insertA_ne (xs : List (String × α)) (k k' : String)
    (v : α) (h : k ≠ k') :
    lookupA (insertA xs k v) k' = lookupA xs k' := by
  induction xs with
  | nil => simp [insertA, lookupA, h]
  | cons hd tl ih =>
      obtain ⟨k₀, v₀⟩ := hd
      by_cases h₀ : k₀ = k
      · subst h₀
        simp [insertA, lookupA, h]
      · simp only [insertA, if_neg h₀]
        by_cases h₁ : k₀ = k'
        · simp [lookupA, h₁]
        · simp [lookupA, h₁, ih]

theorem lookupA_eraseA_self (xs : List (String × α)) (k : String) :
    lookupA (eraseA xs k) k = none := by
  induction xs with
  | nil => simp [eraseA, lookupA]
  | cons hd tl ih =>
      obtain ⟨k', v'⟩ := hd
      by_cases h : k' = k
      · simp [eraseA, h, ih]
      · simp [eraseA, lookupA, h, ih]

theorem lookupA_eraseA_ne (xs : List (String × α)) (k k' : String)
    (h : k ≠ k') : lookupA (eraseA xs k) k' = lookupA xs k' := by
  induction xs with
  | nil => simp [eraseA]
  | cons hd tl ih =>
      obtain ⟨k₀, v₀⟩ := hd
      by_cases h₀ : k₀ = k
      · subst h₀
        simp [eraseA, lookupA, h, ih]
      · by_cases h₁ : k₀ = k'
        · simp [eraseA, lookupA, h₀, h₁, Ne.symm h]
        · simp [eraseA, lookupA, h₀, h₁, ih]

end Assoc

open Assoc

/-!
## Validator layer (`formencode` contract)

Each validator exposes `to_python` (validate/convert raw data inward,
failing with `Invalid` on violation), `from_python` (convert a value on
the way out; the validators used here accept Python values unvalidated,
so it is total), and the `if_missing` default.
-/

structure Validator where
  to_python : Yaml → Except PyErr Yaml
  from_python : Yaml → Yaml
  if_missing : Yaml

/-- Decimal digits to a number, `none` on a non-digit or empty input. -/
def digitsNat (cs : List Char) : Option Nat :=
  match cs with
  | [] => none
  | cs =>
      cs.foldl
        (fun acc c => acc.bind (fun n =>
          if c.isDigit then some (n * 10 + (c.toNat - 48)) else none))
        (some 0)

/-- Python `int(str)` on the modelled inputs: an optional minus sign
followed by decimal digits. -/
def pyIntOfString (s : String) : Option Int :=
  match s.data with
  | '-' :: cs => (digitsNat cs).map (fun n => -(n : Int))
  | cs => (digitsNat cs).map Int.ofNat

/-- `formencode.validators.Number._to_python`: coerce via `int(value)`
(a Python `bool` is an `int`; an integer-literal string parses), else
`Invalid`.  The float fallback is outside the modelled value domain. -/
def numberCoerce (v : Yaml) : Except PyErr Int :=
  match v with
  | .int n => .ok n
  | .bool b => .ok (if b then 1 else 0)
  | .str s =>
      match pyIntOfString s with
      | some n => .ok n
      | none => .error (.invalid "Please enter a number")
  | _ => .error (.invalid "Please enter a number")

/-- `Number(min=..., max=...)`: coercion followed by the range check of
`RangeValidator.validate_python`; `from_python` accepts Python values
unvalidated (`accept_python`), i.e. is the identity. -/
def numberValidator (lo hi : Int) (dflt : Yaml) : Validator where
  to_python v := do
    let n ← numberCoerce v
    if n < lo then .error (.invalid "Please enter a number that is greater")
    else if hi < n then .error (.invalid "Please enter a number that is smaller")
    else .ok (.int n)
  from_python v := v
  if_missing := dflt

/-- `ExtendedURL.to_python`: strip, prepend `http://` when no scheme is
present (`add_http`), then match against `url_re`.  The regex is
abstracted to its scheme requirement; no claim exercises the host, port
or path structure of `url_re`. -/
def extendedURLValidator (dflt : Yaml) : Validator where
  to_python v :=
    match v with
    | .str s =>
        let s := s.trim
        let s := if s.startsWith "http://" || s.startsWith "https://"
                 then s else "http://" ++ s
        if s = "http://" || s = "https://"
        then .error (.invalid ("You must provide a full domain name: " ++ s))
        else .ok (.str s)
    | _ => .error (.invalid "You must provide a URL")
  from_python v := v
  if_missing := dflt

/-- `Directory.validate_python`: the value must name an existing
directory (`os.path.isdir`); the filesystem predicate is a parameter.
`from_python` is the identity (`accept_python`). -/
def directoryValidator (isdir : String → Bool) (dflt : Yaml) : Validator where
  to_python v :=
    match v with
    | .str s =>
        if isdir s then .ok (.str s)
        else .error (.invalid ("'" ++ s ++ "' does not exist or is not a directory"))
    | _ => .error (.invalid "Please enter a directory")
  from_python v := v
  if_missing := dflt

/-!
## The `ConfigurationOption` descriptor and backend stores
-/

/-- The dict-like interface both backends expose to the facade.
`get` returns `none` where the Python store raises `KeyError` (the
descriptor's `__get__` catches exactly `KeyError`). -/
structure StoreOps (σ : Type) where
  get : σ → String → Option Yaml
  set : σ → String → Yaml → σ
  del : σ → String → σ

/-- A declared option: unique name, documentation, validator
(`validator.if_missing` must be a usable default — asserted at
declaration time in the source). -/
structure ConfigurationOption where
  name : String
  doc : String
  validator : Validator

/-- `ConfigurationOption.__get__`: look the raw value up in the store;
on `KeyError` return `validator.if_missing` unconverted, otherwise
convert the raw value through `validator.from_python`. -/
def ConfigurationOption.get {σ : Type} (S : StoreOps σ)
    (opt : ConfigurationOption) (store : σ) : Yaml :=
  match S.get store opt.name with
  | none => opt.validator.if_missing
  | some raw => opt.validator.from_python raw

/-- `ConfigurationOption.__set__`: convert the given value through
`validator.to_python` (propagating `Invalid`), then store the result. -/
def ConfigurationOption.set {σ : Type} (S : StoreOps σ)
    (opt : ConfigurationOption) (value : Yaml) (store : σ) : Except PyErr σ :=
  (opt.validator.to_python value).map (S.set store opt.name)

/-- `ConfigurationOption.__delete__`: delete the backend entry. -/
def ConfigurationOption.del {σ : Type} (S : StoreOps σ)
    (opt : ConfigurationOption) (store : σ) : σ :=
  S.del store opt.name

/-!
## `ConfigurationFile`: YAML-in-a-file backend
-/

mutual

/-- Python `repr` of a parsed YAML object, used in the `ValueError`
message of `ConfigurationFile.load`. -/
def reprYaml : Yaml → String
  | .null => "None"
  | .bool true => "True"
  | .bool false => "False"
  | .int n => toString n
  | .str s => "'" ++ s ++ "'"
  | .seq xs => "[" ++ reprYamlList xs ++ "]"
  | .map xs => "\x7b" ++ reprYamlPairs xs ++ "\x7d"

def reprYamlList : List Yaml → String
  | [] => ""
  | [x] => reprYaml x
  | x :: xs => reprYaml x ++ ", " ++ reprYamlList xs

def reprYamlPairs : List (String × Yaml) → String
  | [] => ""
  | [(k, v)] => "'" ++ k ++ "': " ++ reprYaml v
  | (k, v) :: xs => "'" ++ k ++ "': " ++ reprYaml v ++ ", " ++ reprYamlPairs xs

end

/-- The in-memory state of a `ConfigurationFile` store: an option-name
to raw-value mapping, the dirty flag, and the file path. -/
structure ConfigurationFile where
  config : List (String × Yaml)
  dirty : Bool
  path : String
deriving Repr

namespace ConfigurationFile

/-- `ConfigurationFile.__getitem__`: `self.config[name]`, raising
`KeyError` on an absent key. -/
def getItem (cf : ConfigurationFile) (name : String) : Except PyErr Yaml :=
  match lookupA cf.config name with
  | some v => .ok v
  | none => .error (.keyError name)

/-- `ConfigurationFile.__setitem__`: overwrite/create the entry and mark
the store dirty. -/
def setItem (cf : ConfigurationFile) (name : String) (data : Yaml) :
    ConfigurationFile :=
  { cf with config := insertA cf.config name data, dirty := true }

/-- `ConfigurationFile.__delitem__`: delete the entry and mark dirty
only when the key is present; otherwise a no-op. -/
def delItem (cf : ConfigurationFile) (name : String) : ConfigurationFile :=
  if (lookupA cf.config name).isSome then
    { cf with config := eraseA cf.config name, dirty := true }
  else cf

/-- The `ValueError` message of `ConfigurationFile.load`:
`"Configuration in %s is not a mapping: %r" % (self.path, config)`. -/
def notMappingMsg (path : String) (doc : Yaml) : String :=
  "Configuration in " ++ path ++ " is not a mapping: " ++ reprYaml doc

/-- `ConfigurationFile.load` on the parsed document `doc`: an empty or
absent document (`None`) clears the store with `dirty := false`; a
mapping becomes the store's contents with `dirty := false`; anything
else raises `ValueError` naming the path and the offending value. -/
def loadDoc (cf : ConfigurationFile) (doc : Yaml) :
    Except PyErr ConfigurationFile :=
  match doc with
  | .null => .ok { cf with config := [], dirty := false }
  | .map m => .ok { cf with config := m, dirty := false }
  | other => .error (.valueError (notMappingMsg cf.path other))

/-- `ConfigurationFile.save`: atomically write the whole mapping
(`yaml.safe_dump(self.config)`) and clear the dirty flag.  Returns the
document written alongside the new state. -/
def save (cf : ConfigurationFile) : Yaml × ConfigurationFile :=
  (.map cf.config, { cf with dirty := false })

end ConfigurationFile

/-- `touch(path)`: ensure the file exists; a previously nonexistent file
becomes empty, which parses to `None`. -/
def touchDoc (file : Option Yaml) : Yaml :=
  file.getD .null

/-- Result of one `ConfigurationFile.open` context: the on-disk document
afterwards, whether `save` ran, whether the lock was released, and what
escaped the block. -/
structure FileOpenResult where
  file : Option Yaml
  saved : Bool
  lockReleased : Bool
  result : Except PyErr ConfigurationFile
deriving Repr

/-- `ConfigurationFile.open(path)` as a whole-cycle function: acquire
the lock (uncontended here; contention/timeout is a real-time property
outside this model), `touch` the path, construct and `load` the store,
run the caller's block, `save` on a clean exit exactly when dirty, and
release the lock on every path.  The caller's block is the state
transformer `body`; an `Except.error` is an exception escaping it. -/
def fileOpen (path : String) (file : Option Yaml)
    (body : ConfigurationFile → Except PyErr ConfigurationFile) :
    FileOpenResult :=
  let doc := touchDoc file
  match ConfigurationFile.loadDoc ⟨[], false, path⟩ doc with
  | .error e =>
      { file := some doc, saved := false, lockReleased := true,
        result := .error e }
  | .ok cf =>
      match body cf with
      | .error e =>
          { file := some doc, saved := false, lockReleased := true,
            result := .error e }
      | .ok cf' =>
          if cf'.dirty then
            { file := some (cf'.save.1), saved := true, lockReleased := true,
              result := .ok cf'.save.2 }
          else
            { file := some doc, saved := false, lockReleased := true,
              result := .ok cf' }

/-!
## `ConfigurationDatabase`: sqlite3 backend

The `configuration` table is a row list `(name, data)`; the
`id INTEGER PRIMARY KEY` column is never selected by any query in the
source, so it is elided.  The `data` blob holds `json.dumps(value)`;
since `json.loads` inverts `json.dumps` on every JSON-representable
value, the blob is modelled as the value itself.
-/

/-- Rows of the `configuration` table, in insertion order. -/
abbrev DbTable : Type := List (String × Yaml)

namespace ConfigurationDatabase

/-- `ConfigurationDatabase.__getitem__`: `SELECT data WHERE name = ?`,
`fetchone` (the `UNIQUE` constraint makes the first match the only one),
`json.loads` on hit, `KeyError` on miss. -/
def getItem (t : DbTable) (name : String) : Except PyErr Yaml :=
  match List.find? (fun r => r.1 == name) t with
  | some r => .ok r.2
  | none => .error (.keyError name)

/-- `ConfigurationDatabase.__setitem__`:
`INSERT OR REPLACE INTO configuration (name, data) VALUES (?, ?)` —
sqlite deletes every row conflicting on the `UNIQUE name` and inserts
the new row (with a fresh `id`). -/
def setItem (t : DbTable) (name : String) (data : Yaml) : DbTable :=
  List.filter (fun r => r.1 != name) t ++ [(name, data)]

/-- `ConfigurationDatabase.__delitem__`:
`DELETE FROM configuration WHERE name = ?` — removes the row when
present, a silent no-op otherwise. -/
def delItem (t : DbTable) (name : String) : DbTable :=
  List.filter (fun r => r.1 != name) t

/-- Number of rows whose `name` column equals `name`. -/
def rowCount (t : DbTable) (name : String) : Nat :=
  (List.filter (fun r => r.1 == name) t).length

/-- `ConfigurationDatabase.__iter__`: `SELECT name FROM configuration`. -/
def names (t : DbTable) : List String :=
  List.map Prod.fst t

end ConfigurationDatabase

/-- Result of one `ConfigurationDatabase.open` context: the committed
(on-disk) table afterwards, whether `commit` ran, whether the
connection was closed, and what escaped the block. -/
structure DbOpenResult where
  disk : DbTable
  committed : Bool
  closed : Bool
  result : Except PyErr Unit
deriving Repr

/-- `ConfigurationDatabase.open(dbpath)` as a whole-cycle function:
`touch` the path, connect (`CREATE TABLE IF NOT EXISTS` leaves rows
untouched), run the caller's block against the connection's
transaction, then `commit` on a clean exit; the exception re-raises
otherwise and the uncommitted transaction is discarded when the
connection closes — which it does on every path (`finally`). -/
def dbOpen (disk : DbTable) (body : DbTable → Except PyErr DbTable) :
    DbOpenResult :=
  match body disk with
  | .error e =>
      { disk := disk, committed := false, closed := true,
        result := .error e }
  | .ok mem =>
      { disk := mem, committed := true, closed := true, result := .ok () }

/-!
## The `Configuration` facade and its `__setattr__` guard
-/

/-- The class-level data of a `Configuration` subclass: its name, the
options declared with `ConfigurationOption`, and the other attributes
present on the class (methods, `DEFAULT_FILENAME`, dunders — anything
`hasattr(self.__class__, name)` finds that is not an option). -/
structure ConfClass where
  clsName : String
  options : List ConfigurationOption
  classAttrs : List String

/-- A facade instance: the wrapped backend store plus the plain
instance attributes `object.__setattr__` creates for non-descriptor
class-attribute names. -/
structure Facade (σ : Type) where
  store : σ
  instAttrs : List (String × Yaml)

/-- The `AttributeError` message of `Configuration.__setattr__`:
`"%r object has no attribute %r" % (self.__class__.__name__, name)`. -/
def noAttrMsg (cls : String) (name : String) : String :=
  "'" ++ cls ++ "' object has no attribute '" ++ name ++ "'"

/-- `Configuration.__setattr__`: when `hasattr(self.__class__, name)`,
defer to `object.__setattr__` — which runs the data descriptor
`ConfigurationOption.__set__` when `name` is a declared option and
creates a plain instance attribute otherwise; else raise
`AttributeError` before anything touches the backend. -/
def configurationSetattr {σ : Type} (S : StoreOps σ) (cls : ConfClass)
    (name : String) (value : Yaml) (f : Facade σ) :
    Except PyErr (Facade σ) :=
  match cls.options.find? (fun o => o.name == name) with
  | some opt =>
      (opt.set S value f.store).map (fun s => { f with store := s })
  | none =>
      if name ∈ cls.classAttrs then
        .ok { f with instAttrs := insertA f.instAttrs name value }
      else
        .error (.attributeError (noAttrMsg cls.clsName name))

/-- The dict-like interface of a `ConfigurationFile` store. -/
def fileStoreOps : StoreOps ConfigurationFile where
  get cf n := lookupA cf.config n
  set := ConfigurationFile.setItem
  del := ConfigurationFile.delItem

/-- The dict-like interface of a `ConfigurationDatabase` store. -/
def dbStoreOps : StoreOps DbTable where
  get t n := (List.find? (fun r => r.1 == n) t).map Prod.snd
  set := ConfigurationDatabase.setItem
  del := ConfigurationDatabase.delItem

/-!
## The `ClusterConfiguration` schema
-/

/-- `ClusterConfiguration.maas_url`. -/
def maas_url_option : ConfigurationOption where
  name := "maas_url"
  doc := "The HTTP URL for the MAAS region."
  validator := extendedURLValidator (.str "http://localhost:5240/MAAS")

/-- `ClusterConfiguration.tftp_port`: `Number(min=0, max=(2 ** 16) - 1,
if_missing=69)`. -/
def tftp_port_option : ConfigurationOption where
  name := "tftp_port"
  doc := "The UDP port on which to listen for TFTP requests."
  validator := numberValidator 0 65535 (.int 69)

/-- `ClusterConfiguration.tftp_root`; `isdir` is the ambient
filesystem's directory predicate. -/
def tftp_root_option (isdir : String → Bool) : ConfigurationOption where
  name := "tftp_root"
  doc := "The root directory for TFTP resources."
  validator :=
    directoryValidator isdir (.str "/var/lib/maas/boot-resources/current")

/-- The `ClusterConfiguration` class: its three declared options and
the non-option attributes found on the class (`DEFAULT_FILENAME` from
`Configuration`, the methods, and the standard object attributes; only
membership of individual names is ever consulted). -/
def clusterConfiguration (isdir : String → Bool) : ConfClass where
  clsName := "ClusterConfiguration"
  options := [maas_url_option, tftp_port_option, tftp_root_option isdir]
  classAttrs :=
    ["DEFAULT_FILENAME", "open", "__init__", "__setattr__", "__doc__",
     "__module__", "__dict__", "__weakref__"]

/-!
## `ConfigBase`: the process-wide parse cache

`deepcopy` aliasing is made observable with an explicit heap: every
cached or returned document lives in its own cell, `deepcopy`
allocates a fresh cell holding an equal value, and a caller "mutating"
its returned document overwrites that cell in place.
-/

/-- The state of `ConfigBase._cache` plus the heap of live documents. -/
structure CacheState where
  heap : Nat → Yaml
  next : Nat
  cache : List (String × Nat)

/-- Allocate a fresh heap cell holding `v`. -/
def CacheState.alloc (s : CacheState) (v : Yaml) : Nat × CacheState :=
  (s.next,
   { heap := fun a => if a = s.next then v else s.heap a,
     next := s.next + 1, cache := s.cache })

/-- In-place mutation of a document through a reference to it. -/
def CacheState.write (s : CacheState) (addr : Nat) (v : Yaml) : CacheState :=
  { s with heap := fun a => if a = addr then v else s.heap a }

/-- `os.path.abspath`: an already-absolute path (leading `/`) is
returned as is, a relative one is resolved against the working
directory.  (Redundant separators and `..` segments are outside the
modelled path domain.) -/
def abspath (cwd p : String) : String :=
  match p.data with
  | '/' :: _ => p
  | _ => cwd ++ "/" ++ p

/-- `ConfigBase.load_from_cache(filename)`: resolve `filename` through
`os.path.abspath`, then under `_cache_lock` parse-and-insert only when
the absolute path is not yet cached, and return `deepcopy` of the
cached document.  Returns the address of the returned copy, the new
state, and the number of underlying open-and-parse operations (0 or 1).
The schema's `parse` and the filesystem `fs` are parameters; reading a
nonexistent file raises `IOError`. -/
def load_from_cache (parse : Yaml → Except PyErr Yaml) (cwd : String)
    (fs : String → Option Yaml) (filename : String) (s : CacheState) :
    Except PyErr (Nat × CacheState × Nat) :=
  let path := abspath cwd filename
  match lookupA s.cache path with
  | some addr =>
      let (copy, s') := s.alloc (s.heap addr)
      .ok (copy, s', 0)
  | none =>
      match fs path with
      | none => .error (.ioError path)
      | some doc =>
          match parse doc with
          | .error e => .error e
          | .ok val =>
              let (cell, s₁) := s.alloc val
              let s₂ := { s₁ with cache := insertA s₁.cache path cell }
              let (copy, s₃) := s₂.alloc (s₂.heap cell)
              .ok (copy, s₃, 1)

/-- `ConfigBase.flush_cache(filename)`: under `_cache_lock`, clear the
whole cache when `filename is None`, else delete the entry keyed by
`filename` exactly as given (no `abspath` resolution), when present. -/
def flush_cache (filename : Option String) (s : CacheState) : CacheState :=
  match filename with
  | none => { s with cache := [] }
  | some f => { s with cache := eraseA s.cache f }

/-!
## Mutation traces over a `ConfigurationFile` store

A caller's open/mutate/close cycle mutates the store only through the
dict interface; a trace of those operations makes "some entry has been
mutated" a checkable predicate.
-/

/-- One dict operation on a `ConfigurationFile` store. -/
inductive FOp where
  | fset (k : String) (v : Yaml) : FOp
  | fdel (k : String) : FOp

/-- Run one operation. -/
def applyFOp (cf : ConfigurationFile) : FOp → ConfigurationFile
  | .fset k v => cf.setItem k v
  | .fdel k => cf.delItem k

/-- Run a trace of operations left to right. -/
def applyFOps (ops : List FOp) (cf : ConfigurationFile) : ConfigurationFile :=
  ops.foldl applyFOp cf

/-- The effect of one operation on the contents alone. -/
def applyOpC (c : List (String × Yaml)) : FOp → List (String × Yaml)
  | .fset k v => insertA c k v
  | .fdel k => if (lookupA c k).isSome then eraseA c k else c

/-- Whether one operation mutates the given contents: a set always
does; a delete does exactly when the key is present. -/
def opChanges (c : List (String × Yaml)) : FOp → Bool
  | .fset _ _ => true
  | .fdel k => (lookupA c k).isSome

/-- Whether a trace mutates the given contents at some point. -/
def traceChanges (ops : List FOp) (c : List (String × Yaml)) : Bool :=
  match ops with
  | [] => false
  | op :: rest => opChanges c op || traceChanges rest (applyOpC c op)

theorem applyFOp_config (cf : ConfigurationFile) (op : FOp) :
    (applyFOp cf op).config = applyOpC cf.config op := by
  cases op with
  | fset k v => rfl
  | fdel k =>
      by_cases h : (lookupA cf.config k).isSome
      · simp [applyFOp, applyOpC, ConfigurationFile.delItem, h]
      · simp [applyFOp, applyOpC, ConfigurationFile.delItem, h]

theorem applyFOp_dirty (cf : ConfigurationFile) (op : FOp) :
    (applyFOp cf op).dirty = (cf.dirty || opChanges cf.config op) := by
  cases op with
  | fset k v => simp [applyFOp, opChanges, ConfigurationFile.setItem]
  | fdel k =>
      by_cases h : (lookupA cf.config k).isSome
      · simp [applyFOp, opChanges, ConfigurationFile.delItem, h]
      · simp [applyFOp, opChanges, ConfigurationFile.delItem, h]

theorem applyFOps_dirty (ops : List FOp) (cf : ConfigurationFile) :
    (applyFOps ops cf).dirty = (cf.dirty || traceChanges ops cf.config) := by
  induction ops generalizing cf with
  | nil => simp [applyFOps, traceChanges]
  | cons op rest ih =>
      simp only [applyFOps, List.foldl_cons, traceChanges]
      rw [show List.foldl applyFOp (applyFOp cf op) rest
            = applyFOps rest (applyFOp cf op) from rfl, ih,
          applyFOp_dirty, applyFOp_config, Bool.or_assoc]

theorem applyOpC_of_not_opChanges (c : List (String × Yaml)) (op : FOp)
    (h : opChanges c op = false) : applyOpC c op = c := by
  cases op with
  | fset k v => simp [opChanges] at h
  | fdel k => simp [opChanges] at h; simp [applyOpC, h]

theorem applyFOps_config_of_not_traceChanges (ops : List FOp)
    (cf : ConfigurationFile) (h : traceChanges ops cf.config = false) :
    (applyFOps ops cf).config = cf.config := by
  induction ops generalizing cf with
  | nil => simp [applyFOps]
  | cons op rest ih =>
      simp only [traceChanges, Bool.or_eq_false_iff] at h
      have hop := applyOpC_of_not_opChanges cf.config op h.1
      simp only [applyFOps, List.foldl_cons]
      have : (applyFOp cf op).config = cf.config := by
        rw [applyFOp_config, hop]
      rw [show List.foldl applyFOp (applyFOp cf op) rest
            = applyFOps rest (applyFOp cf op) from rfl]
      rw [ih (applyFOp cf op) (by rw [this, ← hop]; exact h.2)]
      exact this

/-!
## Helper lemmas
-/

theorem ConfigurationFile.loadDoc_ok_dirty (cf cf' : ConfigurationFile)
    (doc : Yaml) (h : cf.loadDoc doc = .ok cf') :
    cf'.dirty = false ∧ cf'.path = cf.path := by
  cases doc with
  | null =>
      simp only [ConfigurationFile.loadDoc, Except.ok.injEq] at h
      rw [← h]
      exact ⟨rfl, rfl⟩
  | map m =>
      simp only [ConfigurationFile.loadDoc, Except.ok.injEq] at h
      rw [← h]
      exact ⟨rfl, rfl⟩
  | bool b => simp [ConfigurationFile.loadDoc] at h
  | int n => simp [ConfigurationFile.loadDoc] at h
  | str s => simp [ConfigurationFile.loadDoc] at h
  | seq xs => simp [ConfigurationFile.loadDoc] at h

theorem dbFilter_ne_filter_eq (t : DbTable) (name : String) :
    List.filter (fun r => r.1 == name)
      (List.filter (fun r => r.1 != name) t) = [] := by
  induction t with
  | nil => rfl
  | cons hd tl ih =>
      obtain ⟨k, d⟩ := hd
      rw [List.filter_cons]
      by_cases h : k = name
      · rw [if_neg (by simp [h])]
        exact ih
      · rw [if_pos (by simp [h]), List.filter_cons, if_neg (by simp [h])]
        exact ih

theorem dbSetItem_filter_self (t : DbTable) (name : String) (v : Yaml) :
    List.filter (fun r => r.1 == name)
      (ConfigurationDatabase.setItem t name v) = [(name, v)] := by
  simp [ConfigurationDatabase.setItem, List.filter_append,
    dbFilter_ne_filter_eq, List.filter]

theorem dbSetItem_find_self (t : DbTable) (name : String) (v : Yaml) :
    List.find? (fun r => r.1 == name)
      (ConfigurationDatabase.setItem t name v) = some (name, v) := by
  unfold ConfigurationDatabase.setItem
  induction t with
  | nil =>
      rw [List.filter_nil, List.nil_append]
      exact List.find?_cons_of_pos _ (by simp)
  | cons hd tl ih =>
      obtain ⟨k, d⟩ := hd
      rw [List.filter_cons]
      by_cases h : k = name
      · rw [if_neg (by simp [h])]
        exact ih
      · rw [if_pos (by simp [h]), List.cons_append,
          List.find?_cons_of_neg _ (by simp [h])]
        exact ih

/-!
## The claims
-/

/-- **C9**: invariants of the `ConfigurationFile` store state — set
marks `dirty` and overwrites/creates the entry; delete marks `dirty`
only when the key was present and is a no-op otherwise; get of an
absent key fails with `KeyError`; `load` and `save` both leave
`dirty = false`; and starting from a clean store, `dirty` is `true`
after a trace of dict operations exactly when the trace mutated some
entry. -/
theorem C9_file_store_dirty_invariant (cf : ConfigurationFile)
    (name : String) (v doc : Yaml) (ops : List FOp) :
    ((cf.setItem name v).dirty = true ∧
       lookupA (cf.setItem name v).config name = some v) ∧
    ((lookupA cf.config name).isSome = true →
       (cf.delItem name).dirty = true ∧
       lookupA (cf.delItem name).config name = none) ∧
    ((lookupA cf.config name).isSome = false → cf.delItem name = cf) ∧
    (lookupA cf.config name = none →
       cf.getItem name = .error (.keyError name)) ∧
    (∀ cf', cf.loadDoc doc = .ok cf' → cf'.dirty = false) ∧
    cf.save.2.dirty = false ∧
    (cf.dirty = false →
       (applyFOps ops cf).dirty = traceChanges ops cf.config) := by
  refine ⟨⟨rfl, lookupA_insertA_self _ _ _⟩, ?_, ?_, ?_, ?_, rfl, ?_⟩
  · intro h
    refine ⟨?_, ?_⟩
    · simp [ConfigurationFile.delItem, h]
    · simp [ConfigurationFile.delItem, h, lookupA_eraseA_self]
  · intro h
    simp [ConfigurationFile.delItem, h]
  · intro h
    simp [ConfigurationFile.getItem, h]
  · intro cf' h
    exact (ConfigurationFile.loadDoc_ok_dirty cf cf' doc h).1
  · intro h
    rw [applyFOps_dirty, h, Bool.false_or]

/-- Witness for C9 at a concrete store: deleting a present key marks
dirty and removes it; deleting an absent key is a no-op. -/
theorem C9_file_store_dirty_invariant_witness :
    ((ConfigurationFile.delItem ⟨[("a", Yaml.int 1)], false, "f"⟩ "a").dirty
        = true ∧
     lookupA (ConfigurationFile.delItem
        ⟨[("a", Yaml.int 1)], false, "f"⟩ "a").config "a" = none) ∧
    ConfigurationFile.delItem ⟨[("a", Yaml.int 1)], false, "f"⟩ "b"
      = ⟨[("a", Yaml.int 1)], false, "f"⟩ := by
  refine ⟨(C9_file_store_dirty_invariant
      ⟨[("a", Yaml.int 1)], false, "f"⟩ "a" Yaml.null Yaml.null []).2.1
      (by decide),
    (C9_file_store_dirty_invariant
      ⟨[("a", Yaml.int 1)], false, "f"⟩ "b" Yaml.null Yaml.null []).2.2.1
      (by decide)⟩

/-- **C6**: `ConfigurationFile.load` — an empty/absent document yields
an empty mapping with `dirty = false`; a mapping document becomes the
contents with `dirty = false`; any other document fails with a
`ValueError` whose message names the path and the offending value. -/
theorem C6_load_document_shapes (cf : ConfigurationFile) (doc : Yaml)
    (m : List (String × Yaml)) :
    (cf.loadDoc .null = .ok { cf with config := [], dirty := false }) ∧
    (cf.loadDoc (.map m) = .ok { cf with config := m, dirty := false }) ∧
    (doc ≠ .null → (∀ m', doc ≠ .map m') →
       cf.loadDoc doc = .error (.valueError
         ("Configuration in " ++ cf.path ++ " is not a mapping: "
           ++ reprYaml doc))) := by
  refine ⟨rfl, rfl, ?_⟩
  intro h₁ h₂
  cases doc with
  | null => exact absurd rfl h₁
  | map m' => exact absurd rfl (h₂ m')
  | bool b => rfl
  | int n => rfl
  | str s => rfl
  | seq xs => rfl

/-- Witness for C6: a bare scalar `"hello"` under `/etc/maas/cluster.conf`
fails with the format error naming the file and the value. -/
theorem C6_load_document_shapes_witness :
    ConfigurationFile.loadDoc ⟨[], false, "/etc/maas/cluster.conf"⟩
        (Yaml.str "hello")
      = .error (.valueError
          "Configuration in /etc/maas/cluster.conf is not a mapping: 'hello'") := by
  exact (C6_load_document_shapes ⟨[], false, "/etc/maas/cluster.conf"⟩
      (Yaml.str "hello") []).2.2
    (fun h => nomatch h) (fun m' h => nomatch h)

/-- **C4**: `ConfigurationDatabase.open` — on an exception escaping the
caller's block no commit happens, the connection still closes, and the
on-disk table a fresh open would read is the original one; on a clean
exit the block's table is committed and the connection closes, so the
connection closes on every exit path. -/
theorem C4_database_open_commit_discipline (disk : DbTable)
    (body : DbTable → Except PyErr DbTable) :
    (dbOpen disk body).closed = true ∧
    (∀ e, body disk = .error e →
       (dbOpen disk body).committed = false ∧
       (dbOpen disk body).disk = disk ∧
       (dbOpen disk body).result = .error e) ∧
    (∀ mem, body disk = .ok mem →
       (dbOpen disk body).committed = true ∧
       (dbOpen disk body).disk = mem ∧
       (dbOpen disk body).result = .ok ()) := by
  refine ⟨?_, ?_, ?_⟩
  · cases h : body disk <;> simp [dbOpen, h]
  · intro e h
    simp [dbOpen, h]
  · intro mem h
    simp [dbOpen, h]

/-- Witness for C4: a block that sets a row and then raises leaves the
table as it was, uncommitted, with the connection closed. -/
theorem C4_database_open_commit_discipline_witness :
    (dbOpen [("x", Yaml.int 1)]
        (fun t => if (ConfigurationDatabase.setItem t "x" (Yaml.int 2)).length
                     = 0 then .ok t else .error (.userError "boom"))).committed
      = false ∧
    (dbOpen [("x", Yaml.int 1)]
        (fun t => if (ConfigurationDatabase.setItem t "x" (Yaml.int 2)).length
                     = 0 then .ok t else .error (.userError "boom"))).disk
      = [("x", Yaml.int 1)] ∧
    (dbOpen [("x", Yaml.int 1)]
        (fun t => if (ConfigurationDatabase.setItem t "x" (Yaml.int 2)).length
                     = 0 then .ok t else .error (.userError "boom"))).closed
      = true := by
  have h := C4_database_open_commit_discipline [("x", Yaml.int 1)]
    (fun t => if (ConfigurationDatabase.setItem t "x" (Yaml.int 2)).length
                 = 0 then .ok t else .error (.userError "boom"))
  exact ⟨(h.2.1 (.userError "boom") rfl).1, (h.2.1 (.userError "boom") rfl).2.1,
    h.1⟩

/-- **C7**: database upsert semantics — setting the same name twice
leaves exactly one row for it and a get (also after a committed
close/reopen cycle) returns the second value; get after set returns the
value just stored, for every value in the JSON-representable domain. -/
theorem C7_database_upsert (t : DbTable) (name : String) (v₁ v₂ v : Yaml) :
    ConfigurationDatabase.rowCount
        (ConfigurationDatabase.setItem
          (ConfigurationDatabase.setItem t name v₁) name v₂) name = 1 ∧
    ConfigurationDatabase.getItem
        (ConfigurationDatabase.setItem
          (ConfigurationDatabase.setItem t name v₁) name v₂) name = .ok v₂ ∧
    ConfigurationDatabase.getItem
        (dbOpen t (fun tab => .ok (ConfigurationDatabase.setItem
          (ConfigurationDatabase.setItem tab name v₁) name v₂))).disk name
      = .ok v₂ ∧
    ConfigurationDatabase.getItem
        (ConfigurationDatabase.setItem t name v) name = .ok v := by
  refine ⟨?_, ?_, ?_, ?_⟩
  · simp [ConfigurationDatabase.rowCount, dbSetItem_filter_self]
  · simp [ConfigurationDatabase.getItem, dbSetItem_find_self]
  · simp [dbOpen, ConfigurationDatabase.getItem, dbSetItem_find_self]
  · simp [ConfigurationDatabase.getItem, dbSetItem_find_self]

theorem fileOpen_eq_of_load_error (path : String) (file : Option Yaml)
    (body : ConfigurationFile → Except PyErr ConfigurationFile) (e : PyErr)
    (h : ConfigurationFile.loadDoc ⟨[], false, path⟩ (touchDoc file)
          = .error e) :
    fileOpen path file body =
      { file := some (touchDoc file), saved := false, lockReleased := true,
        result := .error e } := by
  simp [fileOpen, h]

theorem fileOpen_eq_of_body_error (path : String) (file : Option Yaml)
    (body : ConfigurationFile → Except PyErr ConfigurationFile)
    (cf₀ : ConfigurationFile) (e : PyErr)
    (hload : ConfigurationFile.loadDoc ⟨[], false, path⟩ (touchDoc file)
               = .ok cf₀)
    (hbody : body cf₀ = .error e) :
    fileOpen path file body =
      { file := some (touchDoc file), saved := false, lockReleased := true,
        result := .error e } := by
  simp [fileOpen, hload, hbody]

theorem fileOpen_eq_of_clean_dirty (path : String) (file : Option Yaml)
    (body : ConfigurationFile → Except PyErr ConfigurationFile)
    (cf₀ cf₁ : ConfigurationFile)
    (hload : ConfigurationFile.loadDoc ⟨[], false, path⟩ (touchDoc file)
               = .ok cf₀)
    (hbody : body cf₀ = .ok cf₁) (hd : cf₁.dirty = true) :
    fileOpen path file body =
      { file := some (.map cf₁.config), saved := true, lockReleased := true,
        result := .ok cf₁.save.2 } := by
  simp [fileOpen, hload, hbody, hd, ConfigurationFile.save]

theorem fileOpen_eq_of_clean_not_dirty (path : String) (file : Option Yaml)
    (body : ConfigurationFile → Except PyErr ConfigurationFile)
    (cf₀ cf₁ : ConfigurationFile)
    (hload : ConfigurationFile.loadDoc ⟨[], false, path⟩ (touchDoc file)
               = .ok cf₀)
    (hbody : body cf₀ = .ok cf₁) (hd : cf₁.dirty = false) :
    fileOpen path file body =
      { file := some (touchDoc file), saved := false, lockReleased := true,
        result := .ok cf₁ } := by
  simp [fileOpen, hload, hbody, hd]

/-- **C5**: `ConfigurationFile.open` — when an exception escapes the
caller's block, `save` never runs (mutations are discarded, the on-disk
file is unchanged) and the lock is still released; on a clean exit the
file is atomically rewritten with the whole serialized mapping exactly
when the final store is dirty — equivalently, for a block that mutates
only through the dict interface, exactly when the trace mutated
something — and the lock is released then too. -/
theorem C5_file_open_save_and_lock_discipline (path : String)
    (file : Option Yaml)
    (body : ConfigurationFile → Except PyErr ConfigurationFile) :
    (fileOpen path file body).lockReleased = true ∧
    (∀ e, (fileOpen path file body).result = .error e →
       (fileOpen path file body).saved = false ∧
       (fileOpen path file body).file = some (touchDoc file) ∧
       (∀ y, file = some y → (fileOpen path file body).file = file)) ∧
    (∀ cf₀ cf₁,
       ConfigurationFile.loadDoc ⟨[], false, path⟩ (touchDoc file) = .ok cf₀ →
       body cf₀ = .ok cf₁ →
       (fileOpen path file body).saved = cf₁.dirty ∧
       (cf₁.dirty = true →
          (fileOpen path file body).file = some (Yaml.map cf₁.config)) ∧
       (cf₁.dirty = false →
          (fileOpen path file body).file = some (touchDoc file))) ∧
    (∀ (ops : List FOp) cf₀,
       ConfigurationFile.loadDoc ⟨[], false, path⟩ (touchDoc file) = .ok cf₀ →
       (fileOpen path file (fun cf => .ok (applyFOps ops cf))).saved
         = traceChanges ops cf₀.config) := by
  refine ⟨?_, ?_, ?_, ?_⟩
  · cases hload : ConfigurationFile.loadDoc ⟨[], false, path⟩ (touchDoc file) with
    | error e => rw [fileOpen_eq_of_load_error path file body e hload]
    | ok cf₀ =>
        cases hbody : body cf₀ with
        | error e =>
            rw [fileOpen_eq_of_body_error path file body cf₀ e hload hbody]
        | ok cf₁ =>
            cases hd : cf₁.dirty with
            | true =>
                rw [fileOpen_eq_of_clean_dirty path file body cf₀ cf₁
                  hload hbody hd]
            | false =>
                rw [fileOpen_eq_of_clean_not_dirty path file body cf₀ cf₁
                  hload hbody hd]
  · intro e h
    cases hload : ConfigurationFile.loadDoc ⟨[], false, path⟩ (touchDoc file) with
    | error e' =>
        rw [fileOpen_eq_of_load_error path file body e' hload]
        exact ⟨rfl, rfl, fun y hy => by rw [hy]; rfl⟩
    | ok cf₀ =>
        cases hbody : body cf₀ with
        | error e' =>
            rw [fileOpen_eq_of_body_error path file body cf₀ e' hload hbody]
            exact ⟨rfl, rfl, fun y hy => by rw [hy]; rfl⟩
        | ok cf₁ =>
            cases hd : cf₁.dirty with
            | true =>
                rw [fileOpen_eq_of_clean_dirty path file body cf₀ cf₁
                  hload hbody hd] at h
                exact absurd h (by simp)
            | false =>
                rw [fileOpen_eq_of_clean_not_dirty path file body cf₀ cf₁
                  hload hbody hd] at h
                exact absurd h (by simp)
  · intro cf₀ cf₁ hload hbody
    cases hd : cf₁.dirty with
    | true =>
        rw [fileOpen_eq_of_clean_dirty path file body cf₀ cf₁ hload hbody hd]
        exact ⟨rfl, fun _ => rfl, fun hc => nomatch hc⟩
    | false =>
        rw [fileOpen_eq_of_clean_not_dirty path file body cf₀ cf₁
          hload hbody hd]
        refine ⟨rfl, ?_, ?_⟩
        · intro hc
          exact nomatch hc
        · intro _
          rfl
  · intro ops cf₀ hload
    have hdirty0 : cf₀.dirty = false :=
      (ConfigurationFile.loadDoc_ok_dirty _ _ _ hload).1
    have hdirty : (applyFOps ops cf₀).dirty = traceChanges ops cf₀.config := by
      rw [applyFOps_dirty, hdirty0, Bool.false_or]
    cases hd : (applyFOps ops cf₀).dirty with
    | true =>
        rw [fileOpen_eq_of_clean_dirty path file _ cf₀ (applyFOps ops cf₀)
          hload rfl hd]
        rw [← hdirty, hd]
    | false =>
        rw [fileOpen_eq_of_clean_not_dirty path file _ cf₀ (applyFOps ops cf₀)
          hload rfl hd]
        rw [← hdirty, hd]

/-- Witness for C5 at a concrete cycle: a block that sets a key and then
raises leaves the existing file as it was, unsaved, lock released. -/
theorem C5_file_open_save_and_lock_discipline_witness :
    (fileOpen "/etc/maas/cluster.conf" (some (Yaml.map [("a", Yaml.int 1)]))
        (fun _ => .error (.userError "boom"))).saved = false ∧
    (fileOpen "/etc/maas/cluster.conf" (some (Yaml.map [("a", Yaml.int 1)]))
        (fun _ => .error (.userError "boom"))).file
      = some (Yaml.map [("a", Yaml.int 1)]) ∧
    (fileOpen "/etc/maas/cluster.conf" (some (Yaml.map [("a", Yaml.int 1)]))
        (fun _ => .error (.userError "boom"))).lockReleased = true := by
  have h := C5_file_open_save_and_lock_discipline "/etc/maas/cluster.conf"
    (some (Yaml.map [("a", Yaml.int 1)]))
    (fun _ => .error (.userError "boom"))
  have h2 := h.2.1 (.userError "boom") rfl
  exact ⟨h2.1, h2.2.2 (Yaml.map [("a", Yaml.int 1)]) rfl, h.1⟩

/-- **C2**: file-backed round trip — opening a fresh path, setting
`tftp_port` to `5069` through the facade and exiting cleanly writes
`tftp_port: 5069`; a second open reads `tftp_port` back as `5069` while
`maas_url` and `tftp_root` read back as their schema defaults; and in
general a clean open/mutate/close cycle commits exactly the mutated
contents for the next open to load. -/
theorem C2_file_cycle_persistence (P : String) (isdir : String → Bool)
    (file : Option Yaml) (ops : List FOp) :
    ((fileOpen P none
        (fun cf => tftp_port_option.set fileStoreOps (Yaml.int 5069) cf)).file
      = some (Yaml.map [("tftp_port", Yaml.int 5069)])) ∧
    ((fileOpen P none
        (fun cf => tftp_port_option.set fileStoreOps (Yaml.int 5069) cf)).result
      = .ok ⟨[("tftp_port", Yaml.int 5069)], false, P⟩) ∧
    (ConfigurationFile.loadDoc ⟨[], false, P⟩
        (touchDoc (fileOpen P none
          (fun cf => tftp_port_option.set fileStoreOps (Yaml.int 5069) cf)).file)
      = .ok ⟨[("tftp_port", Yaml.int 5069)], false, P⟩) ∧
    (tftp_port_option.get fileStoreOps
        ⟨[("tftp_port", Yaml.int 5069)], false, P⟩ = Yaml.int 5069) ∧
    (maas_url_option.get fileStoreOps
        ⟨[("tftp_port", Yaml.int 5069)], false, P⟩
      = Yaml.str "http://localhost:5240/MAAS") ∧
    ((tftp_root_option isdir).get fileStoreOps
        ⟨[("tftp_port", Yaml.int 5069)], false, P⟩
      = Yaml.str "/var/lib/maas/boot-resources/current") ∧
    (∀ cf₀ cf₂,
       ConfigurationFile.loadDoc ⟨[], false, P⟩ (touchDoc file) = .ok cf₀ →
       ConfigurationFile.loadDoc ⟨[], false, P⟩
         (touchDoc (fileOpen P file (fun cf => .ok (applyFOps ops cf))).file)
         = .ok cf₂ →
       cf₂.config = (applyFOps ops cf₀).config) := by
  refine ⟨rfl, rfl, rfl, rfl, rfl, rfl, ?_⟩
  intro cf₀ cf₂ hload hload₂
  cases hd : (applyFOps ops cf₀).dirty with
  | true =>
      rw [fileOpen_eq_of_clean_dirty P file _ cf₀ (applyFOps ops cf₀)
        hload rfl hd] at hload₂
      have h' : Except.ok (⟨(applyFOps ops cf₀).config, false, P⟩ :
          ConfigurationFile) = .ok cf₂ := hload₂
      injection h' with h''
      rw [← h'']
  | false =>
      rw [fileOpen_eq_of_clean_not_dirty P file _ cf₀ (applyFOps ops cf₀)
        hload rfl hd] at hload₂
      have hload₂' : ConfigurationFile.loadDoc ⟨[], false, P⟩ (touchDoc file)
          = .ok cf₂ := hload₂
      rw [hload] at hload₂'
      injection hload₂' with h''
      have hdirty0 : cf₀.dirty = false :=
        (ConfigurationFile.loadDoc_ok_dirty _ _ _ hload).1
      have htc : traceChanges ops cf₀.config = false := by
        have hh := applyFOps_dirty ops cf₀
        rw [hd, hdirty0, Bool.false_or] at hh
        exact hh.symm
      rw [← h'', applyFOps_config_of_not_traceChanges ops cf₀ htc]

/-- Witness for C2's general persistence conjunct at a concrete cycle:
starting from a file holding `a: 1`, a cycle that sets `b = 2` leaves a
file whose next load yields both entries. -/
theorem C2_file_cycle_persistence_witness :
    ConfigurationFile.loadDoc ⟨[], false, "P"⟩
        (touchDoc (fileOpen "P" (some (Yaml.map [("a", Yaml.int 1)]))
          (fun cf => .ok (applyFOps [.fset "b" (Yaml.int 2)] cf))).file)
      = .ok ⟨[("a", Yaml.int 1), ("b", Yaml.int 2)], false, "P"⟩ ∧
    ([("a", Yaml.int 1), ("b", Yaml.int 2)] : List (String × Yaml))
      = (applyFOps [.fset "b" (Yaml.int 2)]
          (⟨[("a", Yaml.int 1)], false, "P"⟩ : ConfigurationFile)).config := by
  have h := (C2_file_cycle_persistence "P" (fun _ => true)
      (some (Yaml.map [("a", Yaml.int 1)]))
      [.fset "b" (Yaml.int 2)]).2.2.2.2.2.2
    ⟨[("a", Yaml.int 1)], false, "P"⟩
    ⟨[("a", Yaml.int 1), ("b", Yaml.int 2)], false, "P"⟩
    rfl rfl
  exact ⟨rfl, h⟩

/-- **C1** (counterexample to the claim as stated): the descriptor's
directions are the reverse of the claim's.  For `tftp_port` with the
stored raw value `"5069"`, `__get__` returns
`from_python("5069") = "5069"` and not `to_python`'s result `5069`;
`__set__` given `"5069"` stores `to_python`'s result `5069` and not
`from_python`'s result `"5069"`. -/
theorem C1_option_descriptor_counterexample :
    (ConfigurationOption.get fileStoreOps tftp_port_option
        ⟨[("tftp_port", Yaml.str "5069")], false, "cluster.conf"⟩
      = Yaml.str "5069") ∧
    (tftp_port_option.validator.to_python (Yaml.str "5069")
      = .ok (Yaml.int 5069)) ∧
    (tftp_port_option.validator.from_python (Yaml.str "5069")
      = Yaml.str "5069") ∧
    (ConfigurationOption.set fileStoreOps tftp_port_option (Yaml.str "5069")
        ⟨[], false, "cluster.conf"⟩
      = .ok ⟨[("tftp_port", Yaml.int 5069)], true, "cluster.conf"⟩) ∧
    Yaml.str "5069" ≠ Yaml.int 5069 := by
  exact ⟨rfl, rfl, rfl, rfl, fun h => nomatch h⟩

/-- **C1** (amended): for every option declared with
`ConfigurationOption` on a `Configuration` facade over the file
backend, reading looks the raw value up in the backend store,
returning `validator.if_missing` when the name is absent and
converting a present raw value through `validator.from_python`;
writing converts the given value through `validator.to_python` before
storing it (propagating a validation error unstored); deleting removes
the backend entry outright. -/
theorem C1_option_descriptor_semantics (opt : ConfigurationOption)
    (cf : ConfigurationFile) (value raw : Yaml) :
    (lookupA cf.config opt.name = none →
       opt.get fileStoreOps cf = opt.validator.if_missing) ∧
    (lookupA cf.config opt.name = some raw →
       opt.get fileStoreOps cf = opt.validator.from_python raw) ∧
    (opt.validator.to_python value = .ok raw →
       opt.set fileStoreOps value cf = .ok (cf.setItem opt.name raw) ∧
       lookupA (cf.setItem opt.name raw).config opt.name = some raw) ∧
    (∀ e, opt.validator.to_python value = .error e →
       opt.set fileStoreOps value cf = .error e) ∧
    lookupA (opt.del fileStoreOps cf).config opt.name = none := by
  refine ⟨?_, ?_, ?_, ?_, ?_⟩
  · intro h
    simp [ConfigurationOption.get, fileStoreOps, h]
  · intro h
    simp [ConfigurationOption.get, fileStoreOps, h]
  · intro h
    refine ⟨by simp [ConfigurationOption.set, fileStoreOps, h, Except.map], ?_⟩
    simpa [ConfigurationFile.setItem] using
      lookupA_insertA_self cf.config opt.name raw
  · intro e h
    simp [ConfigurationOption.set, fileStoreOps, h, Except.map]
  · by_cases hp : (lookupA cf.config opt.name).isSome
    · simp [ConfigurationOption.del, fileStoreOps, ConfigurationFile.delItem,
        hp, lookupA_eraseA_self]
    · simp only [ConfigurationOption.del, fileStoreOps,
        ConfigurationFile.delItem, hp, if_false, Bool.false_eq_true]
      simp only [Option.not_isSome_iff_eq_none] at hp
      simpa using hp

/-- Witness for C1 (amended) at concrete options: `maas_url` on an
empty store reads its default; a valid `tftp_port` write stores the
converted value. -/
theorem C1_option_descriptor_semantics_witness :
    (ConfigurationOption.get fileStoreOps maas_url_option
        ⟨[], false, "cluster.conf"⟩
      = Yaml.str "http://localhost:5240/MAAS") ∧
    (ConfigurationOption.set fileStoreOps tftp_port_option (Yaml.int 69)
        ⟨[], false, "cluster.conf"⟩
      = .ok (ConfigurationFile.setItem ⟨[], false, "cluster.conf"⟩
          "tftp_port" (Yaml.int 69))) := by
  exact ⟨(C1_option_descriptor_semantics maas_url_option
      ⟨[], false, "cluster.conf"⟩ Yaml.null Yaml.null).1 rfl,
    ((C1_option_descriptor_semantics tftp_port_option
      ⟨[], false, "cluster.conf"⟩ (Yaml.int 69) (Yaml.int 69)).2.2.1 rfl).1⟩

/-- **C3** (counterexample to the claim as stated):
`DEFAULT_FILENAME` is not declared as a `ConfigurationOption` on
`ClusterConfiguration`, yet assigning it does not raise — it becomes a
plain instance attribute, because `__setattr__` admits every name
found on the class, not only option names. -/
theorem C3_setattr_guard_counterexample :
    ((clusterConfiguration (fun _ => true)).options.all
        (fun o => o.name != "DEFAULT_FILENAME") = true) ∧
    (configurationSetattr fileStoreOps (clusterConfiguration (fun _ => true))
        "DEFAULT_FILENAME" (Yaml.str "/tmp/cluster.conf")
        ⟨⟨[], false, "P"⟩, []⟩
      = .ok ⟨⟨[], false, "P"⟩,
          [("DEFAULT_FILENAME", Yaml.str "/tmp/cluster.conf")]⟩) := by
  exact ⟨rfl, rfl⟩

/-- **C3** (amended): assigning an attribute name that is not present
on the facade's class at all — neither a declared `ConfigurationOption`
nor any other class attribute — raises `AttributeError` immediately and
the backend store is untouched; a non-option class-attribute name is
assigned as a plain instance attribute, also leaving the backend store
unchanged. -/
theorem C3_setattr_guard {σ : Type} (S : StoreOps σ) (cls : ConfClass)
    (name : String) (value : Yaml) (f : Facade σ)
    (hopt : ∀ o ∈ cls.options, o.name ≠ name) :
    (name ∉ cls.classAttrs →
       configurationSetattr S cls name value f
         = .error (.attributeError (noAttrMsg cls.clsName name))) ∧
    (name ∈ cls.classAttrs →
       configurationSetattr S cls name value f
         = .ok { f with instAttrs := insertA f.instAttrs name value }) := by
  have hfind : cls.options.find? (fun o => o.name == name) = none := by
    rw [List.find?_eq_none]
    intro o ho
    simp [hopt o ho]
  refine ⟨?_, ?_⟩
  · intro h
    simp [configurationSetattr, hfind, h]
  · intro h
    simp [configurationSetattr, hfind, h]

/-- Witness for C3 (amended): the misspelling `tftp_prot` is rejected
with `AttributeError` and the store is left as it was. -/
theorem C3_setattr_guard_witness :
    configurationSetattr fileStoreOps (clusterConfiguration (fun _ => true))
        "tftp_prot" (Yaml.int 69) ⟨⟨[], false, "P"⟩, []⟩
      = .error (.attributeError
          "'ClusterConfiguration' object has no attribute 'tftp_prot'") := by
  exact (C3_setattr_guard fileStoreOps (clusterConfiguration (fun _ => true))
      "tftp_prot" (Yaml.int 69) ⟨⟨[], false, "P"⟩, []⟩
      (by decide)).1 (by decide)

theorem write_heap_ne (s : CacheState) (addr a : Nat) (w : Yaml)
    (h : a ≠ addr) : (s.write addr w).heap a = s.heap a := by
  simp [CacheState.write, h]

theorem load_from_cache_hit (parse : Yaml → Except PyErr Yaml)
    (cwd : String) (fs : String → Option Yaml) (filename : String)
    (s : CacheState) (addr : Nat)
    (hcached : lookupA s.cache (abspath cwd filename) = some addr) :
    load_from_cache parse cwd fs filename s
      = .ok (s.next,
          { heap := fun a => if a = s.next then s.heap addr else s.heap a,
            next := s.next + 1, cache := s.cache }, 0) := by
  simp only [load_from_cache, hcached, CacheState.alloc]

theorem load_from_cache_miss (parse : Yaml → Except PyErr Yaml)
    (cwd : String) (fs : String → Option Yaml) (filename : String)
    (s : CacheState) (doc val : Yaml)
    (huncached : lookupA s.cache (abspath cwd filename) = none)
    (hfs : fs (abspath cwd filename) = some doc)
    (hparse : parse doc = .ok val) :
    load_from_cache parse cwd fs filename s
      = .ok (s.next + 1,
          { heap := fun a => if a = s.next + 1 then val
              else if a = s.next then val else s.heap a,
            next := s.next + 2,
            cache := insertA s.cache (abspath cwd filename) s.next }, 1) := by
  simp only [load_from_cache, huncached, hfs, hparse, CacheState.alloc]
  simp

theorem load_from_cache_hit_spec (parse : Yaml → Except PyErr Yaml)
    (cwd : String) (fs : String → Option Yaml) (filename : String)
    (s : CacheState) (addr : Nat)
    (hcached : lookupA s.cache (abspath cwd filename) = some addr) :
    ∃ S : CacheState,
      load_from_cache parse cwd fs filename s = .ok (s.next, S, 0) ∧
      S.next = s.next + 1 ∧
      S.heap s.next = s.heap addr ∧
      (∀ a, a ≠ s.next → S.heap a = s.heap a) ∧
      S.cache = s.cache := by
  refine ⟨_, load_from_cache_hit parse cwd fs filename s addr hcached,
    rfl, by simp, ?_, rfl⟩
  intro a ha
  simp [ha]

theorem load_from_cache_miss_spec (parse : Yaml → Except PyErr Yaml)
    (cwd : String) (fs : String → Option Yaml) (filename : String)
    (s : CacheState) (doc val : Yaml)
    (huncached : lookupA s.cache (abspath cwd filename) = none)
    (hfs : fs (abspath cwd filename) = some doc)
    (hparse : parse doc = .ok val) :
    ∃ S : CacheState,
      load_from_cache parse cwd fs filename s = .ok (s.next + 1, S, 1) ∧
      S.next = s.next + 2 ∧
      S.heap (s.next + 1) = val ∧
      S.heap s.next = val ∧
      lookupA S.cache (abspath cwd filename) = some s.next := by
  refine ⟨_, load_from_cache_miss parse cwd fs filename s doc val
    huncached hfs hparse, rfl, by simp, ?_, ?_⟩
  · have h : s.next ≠ s.next + 1 := by omega
    simp [h]
  · exact lookupA_insertA_self s.cache (abspath cwd filename) s.next

/-- **C8**: two `load_from_cache` calls for the same path with no
intervening flush perform exactly one underlying open-and-parse (the
counts of the two calls are 1 and 0), and each call returns an
independent deep copy: the two returned documents and the cache's own
cell are three distinct heap cells holding the parsed value, and
overwriting either returned copy leaves the other copy and the cache's
cell untouched. -/
theorem C8_cache_single_parse_and_isolation
    (parse : Yaml → Except PyErr Yaml) (cwd : String)
    (fs : String → Option Yaml) (filename : String) (s : CacheState)
    (doc val : Yaml)
    (huncached : lookupA s.cache (abspath cwd filename) = none)
    (hfs : fs (abspath cwd filename) = some doc)
    (hparse : parse doc = .ok val) :
    ∃ a₁ s₁ a₂ s₂ cell,
      load_from_cache parse cwd fs filename s = .ok (a₁, s₁, 1) ∧
      load_from_cache parse cwd fs filename s₁ = .ok (a₂, s₂, 0) ∧
      lookupA s₂.cache (abspath cwd filename) = some cell ∧
      a₁ ≠ a₂ ∧ a₁ ≠ cell ∧ a₂ ≠ cell ∧
      s₂.heap a₁ = val ∧ s₂.heap a₂ = val ∧ s₂.heap cell = val ∧
      (∀ w, (s₂.write a₁ w).heap a₂ = val ∧ (s₂.write a₁ w).heap cell = val ∧
            (s₂.write a₂ w).heap a₁ = val ∧ (s₂.write a₂ w).heap cell = val) := by
  obtain ⟨S₁, h₁, hn₁, hva, hvc, hc₁⟩ :=
    load_from_cache_miss_spec parse cwd fs filename s doc val
      huncached hfs hparse
  obtain ⟨S₂, h₂, hn₂, hv₂, hframe₂, hcache₂⟩ :=
    load_from_cache_hit_spec parse cwd fs filename S₁ s.next hc₁
  have hane : s.next + 1 ≠ S₁.next := by omega
  have hcne : s.next ≠ S₁.next := by omega
  have hheap₁ : S₂.heap (s.next + 1) = val := by
    rw [hframe₂ (s.next + 1) hane, hva]
  have hheap₂ : S₂.heap S₁.next = val := by
    rw [hv₂, hvc]
  have hheapc : S₂.heap s.next = val := by
    rw [hframe₂ s.next hcne, hvc]
  refine ⟨s.next + 1, S₁, S₁.next, S₂, s.next, h₁, h₂, ?_, hane, ?_, ?_,
    hheap₁, hheap₂, hheapc, ?_⟩
  · rw [hcache₂]
    exact hc₁
  · omega
  · omega
  · intro w
    refine ⟨?_, ?_, ?_, ?_⟩
    · rw [write_heap_ne S₂ (s.next + 1) S₁.next w (Ne.symm hane), hheap₂]
    · rw [write_heap_ne S₂ (s.next + 1) s.next w (by omega), hheapc]
    · rw [write_heap_ne S₂ S₁.next (s.next + 1) w hane, hheap₁]
    · rw [write_heap_ne S₂ S₁.next s.next w hcne, hheapc]

/-- Witness for C8 at a concrete cache: an empty cache, a filesystem
holding one parsed file, the identity schema. -/
theorem C8_cache_single_parse_and_isolation_witness :
    ∃ a₁ s₁ a₂ s₂ cell,
      load_from_cache Except.ok "/root"
        (fun p => if p = "/root/pserv.yaml"
          then some (Yaml.map [("logfile", Yaml.str "pserv.log")]) else none)
        "pserv.yaml" ⟨fun _ => Yaml.null, 0, []⟩ = .ok (a₁, s₁, 1) ∧
      load_from_cache Except.ok "/root"
        (fun p => if p = "/root/pserv.yaml"
          then some (Yaml.map [("logfile", Yaml.str "pserv.log")]) else none)
        "pserv.yaml" s₁ = .ok (a₂, s₂, 0) ∧
      lookupA s₂.cache (abspath "/root" "pserv.yaml") = some cell ∧
      a₁ ≠ a₂ ∧ a₁ ≠ cell ∧ a₂ ≠ cell ∧
      s₂.heap a₁ = Yaml.map [("logfile", Yaml.str "pserv.log")] ∧
      s₂.heap a₂ = Yaml.map [("logfile", Yaml.str "pserv.log")] ∧
      s₂.heap cell = Yaml.map [("logfile", Yaml.str "pserv.log")] ∧
      (∀ w, (s₂.write a₁ w).heap a₂
              = Yaml.map [("logfile", Yaml.str "pserv.log")] ∧
            (s₂.write a₁ w).heap cell
              = Yaml.map [("logfile", Yaml.str "pserv.log")] ∧
            (s₂.write a₂ w).heap a₁
              = Yaml.map [("logfile", Yaml.str "pserv.log")] ∧
            (s₂.write a₂ w).heap cell
              = Yaml.map [("logfile", Yaml.str "pserv.log")]) := by
  exact C8_cache_single_parse_and_isolation Except.ok "/root"
    (fun p => if p = "/root/pserv.yaml"
      then some (Yaml.map [("logfile", Yaml.str "pserv.log")]) else none)
    "pserv.yaml" ⟨fun _ => Yaml.null, 0, []⟩
    (Yaml.map [("logfile", Yaml.str "pserv.log")])
    (Yaml.map [("logfile", Yaml.str "pserv.log")])
    rfl rfl rfl

/-- **C10**: `load_from_cache` keys the cache by `os.path.abspath` of
the requested path, but `flush_cache` with a non-`None` filename uses
the spelling exactly as given — so flushing under a spelling that
differs from the absolute form (e.g. a relative path to the same file)
does not evict the entry, and a subsequent `load_from_cache` for that
path is still served from the cache (zero parses) with the previously
cached document. -/
theorem C10_flush_cache_keyed_by_exact_spelling
    (parse : Yaml → Except PyErr Yaml) (cwd : String)
    (fs : String → Option Yaml) (filename : String) (s : CacheState)
    (addr : Nat)
    (hrel : abspath cwd filename ≠ filename)
    (hcached : lookupA s.cache (abspath cwd filename) = some addr) :
    lookupA (flush_cache (some filename) s).cache (abspath cwd filename)
      = some addr ∧
    (∃ a₂ s₂,
       load_from_cache parse cwd fs filename (flush_cache (some filename) s)
         = .ok (a₂, s₂, 0) ∧
       s₂.heap a₂ = s.heap addr) := by
  have hsurvive : lookupA (flush_cache (some filename) s).cache
      (abspath cwd filename) = some addr := by
    show lookupA (eraseA s.cache filename) (abspath cwd filename) = some addr
    rw [lookupA_eraseA_ne s.cache filename (abspath cwd filename)
      (Ne.symm hrel)]
    exact hcached
  obtain ⟨S, hload, _, hv, _, _⟩ := load_from_cache_hit_spec parse cwd fs
    filename (flush_cache (some filename) s) addr hsurvive
  exact ⟨hsurvive, (flush_cache (some filename) s).next, S, hload, hv⟩

/-- Witness for C10: the cache holds `/var/lib/maas/pserv.yaml`;
flushing the relative spelling `pserv.yaml` leaves it cached and the
next load is a cache hit on the old document. -/
theorem C10_flush_cache_keyed_by_exact_spelling_witness :
    lookupA (flush_cache (some "pserv.yaml")
        ⟨fun _ => Yaml.int 7, 5, [("/var/lib/maas/pserv.yaml", 3)]⟩).cache
      (abspath "/var/lib/maas" "pserv.yaml") = some 3 ∧
    (∃ a₂ s₂,
       load_from_cache Except.ok "/var/lib/maas" (fun _ => none) "pserv.yaml"
           (flush_cache (some "pserv.yaml")
             ⟨fun _ => Yaml.int 7, 5, [("/var/lib/maas/pserv.yaml", 3)]⟩)
         = .ok (a₂, s₂, 0) ∧
       s₂.heap a₂ = Yaml.int 7) := by
  exact C10_flush_cache_keyed_by_exact_spelling Except.ok "/var/lib/maas"
    (fun _ => none) "pserv.yaml"
    ⟨fun _ => Yaml.int 7, 5, [("/var/lib/maas/pserv.yaml", 3)]⟩ 3
    (by decide) rfl
